import Mathlib

/-!
Shallow embedding of the Mergington High School activities API
(src/app.py, src/models.py, src/db.py).

The relational store is modelled as two lists of rows (`activity` and
`participant` tables) together with the auto-increment counters of the two
primary-key columns.  Each HTTP handler becomes a pure function from a store
to `Except HandlerError (response × store)`; raising `HTTPException` is the
`error` case and leaves the store unchanged (the session is discarded without
a commit).  SQLModel's `one_or_none` is modelled faithfully: zero rows give
`none`, one row gives `some`, and two or more raise (`multipleResults`),
which would surface as an unclassified server error.

One line of the sign-up handler deserves note: its capacity branch calls
`.count()` on the result of `session.exec(select(...))`, but that result is
a `ScalarResult`, which has no `count` method (`count()` lives on the legacy
`Query` object).  So whenever `max_participants` is set the handler raises
`AttributeError` — a server error, modelled as `attributeError` — before any
comparison or insert; the `HTTPException(400, "Activity is full")` raise on
the next line is dead code.
-/

namespace Mergington

/-- Row of the `activity` table (models.Activity): auto id, name,
optional description/schedule, optional capacity. -/
structure Activity where
  id : Nat
  name : String
  description : Option String
  schedule : Option String
  max_participants : Option Int
deriving Repr, DecidableEq

/-- Row of the `participant` table (models.Participant): auto id, email,
owning activity reference.  (`created_at` plays no role in any handler and
is omitted.) -/
structure Participant where
  id : Nat
  email : String
  activity_id : Option Nat
deriving Repr, DecidableEq

/-- The relational store: the two tables plus the auto-increment counters of
their primary keys (SQLite assigns 1, 2, 3, ...), and a flag recording that
`create_db_and_tables` has run. -/
structure Store where
  activities : List Activity
  participants : List Participant
  nextActivityId : Nat
  nextParticipantId : Nat
  schemaCreated : Bool
deriving Repr, DecidableEq

/-- A raised `fastapi.HTTPException`. -/
structure HTTPException where
  status_code : Nat
  detail : String
deriving Repr, DecidableEq

/-- How a handler run can fail: an `HTTPException`, sqlalchemy's
`MultipleResultsFound` escaping from `one_or_none`, or the Python
`AttributeError` raised by calling the nonexistent `ScalarResult.count`
(both of the latter surface as unclassified server errors). -/
inductive HandlerError where
  | http (e : HTTPException)
  | multipleResults
  | attributeError
deriving Repr, DecidableEq

/-- `Result.one_or_none()`: `none` on zero rows, the row on exactly one,
raises on two or more. -/
def oneOrNone {α : Type} (l : List α) : Except Unit (Option α) :=
  match l with
  | [] => Except.ok none
  | [a] => Except.ok (some a)
  | _ => Except.error ()

/-- JSON body returned by a successful sign-up. -/
structure SignupOk where
  message : String
  participant_id : Nat
deriving Repr, DecidableEq

/-- JSON body carrying only a message (unregister). -/
structure MessageOk where
  message : String
deriving Repr, DecidableEq

/-- One element of the JSON array returned by `GET /activities`. -/
structure ActivityOut where
  id : Nat
  name : String
  description : Option String
  schedule : Option String
  max_participants : Option Int
  participants : List String
deriving Repr, DecidableEq

/-- `select(Participant).where(Participant.activity_id == aid)` row count. -/
def activityCount (s : Store) (aid : Nat) : Nat :=
  (s.participants.filter (fun p => p.activity_id == some aid)).length

/-- GET /activities (app.get_activities). -/
def get_activities (s : Store) : List ActivityOut :=
  s.activities.map (fun a =>
    { id := a.id
      name := a.name
      description := a.description
      schedule := a.schedule
      max_participants := a.max_participants
      participants :=
        (s.participants.filter (fun p => p.activity_id == some a.id)).map
          (fun p => p.email) })

/-- POST /activities/{activity_name}/signup (app.signup_for_activity).

When `max_participants` is set, the handler evaluates
`session.exec(select(Participant).where(...)).count()` — but a
`ScalarResult` has no `count` method, so this raises `AttributeError`
before comparing anything; the subsequent `HTTPException(400, "Activity is
full")` and the insert are unreachable on that branch.  The insert is
reached only when `max_participants` is `None`. -/
def signup_for_activity (s : Store) (activity_name email : String) :
    Except HandlerError (SignupOk × Store) :=
  match oneOrNone (s.activities.filter (fun a => a.name == activity_name)) with
  | Except.error _ => Except.error HandlerError.multipleResults
  | Except.ok none => Except.error (HandlerError.http ⟨404, "Activity not found"⟩)
  | Except.ok (some activity) =>
    match oneOrNone (s.participants.filter
        (fun p => p.activity_id == some activity.id && p.email == email)) with
    | Except.error _ => Except.error HandlerError.multipleResults
    | Except.ok (some _) =>
      Except.error (HandlerError.http ⟨400, "Student is already signed up"⟩)
    | Except.ok none =>
      match activity.max_participants with
      | some _ => Except.error HandlerError.attributeError
      | none =>
        Except.ok
          (⟨"Signed up " ++ email ++ " for " ++ activity_name,
            s.nextParticipantId⟩,
           { s with
              participants :=
                s.participants ++ [⟨s.nextParticipantId, email, some activity.id⟩]
              nextParticipantId := s.nextParticipantId + 1 })

/-- DELETE /activities/{activity_name}/unregister
(app.unregister_from_activity).  `session.delete` removes the row with the
participant's primary key. -/
def unregister_from_activity (s : Store) (activity_name email : String) :
    Except HandlerError (MessageOk × Store) :=
  match oneOrNone (s.activities.filter (fun a => a.name == activity_name)) with
  | Except.error _ => Except.error HandlerError.multipleResults
  | Except.ok none => Except.error (HandlerError.http ⟨404, "Activity not found"⟩)
  | Except.ok (some activity) =>
    match oneOrNone (s.participants.filter
        (fun p => p.activity_id == some activity.id && p.email == email)) with
    | Except.error _ => Except.error HandlerError.multipleResults
    | Except.ok none =>
      Except.error (HandlerError.http ⟨400, "Student is not signed up for this activity"⟩)
    | Except.ok (some participant) =>
      Except.ok (⟨"Unregistered " ++ email ++ " from " ++ activity_name⟩,
        { s with
            participants :=
              s.participants.filter (fun q => !(q.id == participant.id)) })

/-- One entry of app._legacy_activities. -/
structure LegacyActivity where
  name : String
  description : String
  schedule : String
  max_participants : Int
  participants : List String

/-- app._legacy_activities, in Python dict insertion order. -/
def _legacy_activities : List LegacyActivity :=
  [⟨"Chess Club",
    "Learn strategies and compete in chess tournaments",
    "Fridays, 3:30 PM - 5:00 PM", 12,
    ["michael@mergington.edu", "daniel@mergington.edu"]⟩,
   ⟨"Programming Class",
    "Learn programming fundamentals and build software projects",
    "Tuesdays and Thursdays, 3:30 PM - 4:30 PM", 20,
    ["emma@mergington.edu", "sophia@mergington.edu"]⟩,
   ⟨"Gym Class",
    "Physical education and sports activities",
    "Mondays, Wednesdays, Fridays, 2:00 PM - 3:00 PM", 30,
    ["john@mergington.edu", "olivia@mergington.edu"]⟩,
   ⟨"Soccer Team",
    "Join the school soccer team and compete in matches",
    "Tuesdays and Thursdays, 4:00 PM - 5:30 PM", 22,
    ["liam@mergington.edu", "noah@mergington.edu"]⟩,
   ⟨"Basketball Team",
    "Practice and play basketball with the school team",
    "Wednesdays and Fridays, 3:30 PM - 5:00 PM", 15,
    ["ava@mergington.edu", "mia@mergington.edu"]⟩,
   ⟨"Art Club",
    "Explore your creativity through painting and drawing",
    "Thursdays, 3:30 PM - 5:00 PM", 15,
    ["amelia@mergington.edu", "harper@mergington.edu"]⟩,
   ⟨"Drama Club",
    "Act, direct, and produce plays and performances",
    "Mondays and Wednesdays, 4:00 PM - 5:30 PM", 20,
    ["ella@mergington.edu", "scarlett@mergington.edu"]⟩,
   ⟨"Math Club",
    "Solve challenging problems and participate in math competitions",
    "Tuesdays, 3:30 PM - 4:30 PM", 10,
    ["james@mergington.edu", "benjamin@mergington.edu"]⟩,
   ⟨"Debate Team",
    "Develop public speaking and argumentation skills",
    "Fridays, 4:00 PM - 5:30 PM", 12,
    ["charlotte@mergington.edu", "henry@mergington.edu"]⟩]

/-- db.create_db_and_tables: creates the schema, touches no row. -/
def create_db_and_tables (s : Store) : Store :=
  { s with schemaCreated := true }

/-- One iteration of the seeding loop: insert the activity, commit (the
activity receives the next id), then insert its participants. -/
def addLegacy (s : Store) (la : LegacyActivity) : Store :=
  let aid := s.nextActivityId
  let a : Activity :=
    ⟨aid, la.name, some la.description, some la.schedule, some la.max_participants⟩
  let s1 : Store :=
    { s with activities := s.activities ++ [a], nextActivityId := aid + 1 }
  la.participants.foldl
    (fun t email =>
      { t with
          participants := t.participants ++ [⟨t.nextParticipantId, email, some aid⟩]
          nextParticipantId := t.nextParticipantId + 1 })
    s1

/-- app.on_startup: create schema; if the activity table has no first row,
migrate the legacy activities. -/
def on_startup (s : Store) : Store :=
  let s1 := create_db_and_tables s
  match s1.activities.head? with
  | some _ => s1
  | none => _legacy_activities.foldl addLegacy s1

/-- A store with empty tables, as after the first `create_engine` on a fresh
database file. -/
def emptyStore : Store :=
  { activities := [], participants := [], nextActivityId := 1,
    nextParticipantId := 1, schemaCreated := false }

/-- The state after the first startup on an empty database. -/
def seededStore : Store := on_startup emptyStore

/-- The "Chess Club" row of the seeded store (id 1). -/
def chessActivity : Activity :=
  ⟨1, "Chess Club",
   some "Learn strategies and compete in chess tournaments",
   some "Fridays, 3:30 PM - 5:00 PM", some 12⟩

/-- A small store whose single activity has reached its capacity of 1:
used to exercise the capacity branch (which crashes on the nonexistent
`ScalarResult.count` instead of answering "Activity is full"). -/
def fullStore : Store :=
  { activities := [⟨1, "Knitting Club", none, none, some 1⟩],
    participants := [⟨1, "alice@mergington.edu", some 1⟩],
    nextActivityId := 2, nextParticipantId := 2, schemaCreated := true }

/-- A small store whose single activity has no capacity set: the only kind
of activity whose sign-up reaches the insert (the capacity branch crashes). -/
def unlimitedStore : Store :=
  { activities := [⟨1, "Open Club", none, none, none⟩],
    participants := [],
    nextActivityId := 2, nextParticipantId := 1, schemaCreated := true }

/-- The first seeded participant row: michael in Chess Club. -/
def michaelRow : Participant :=
  ⟨1, "michael@mergington.edu", some 1⟩

/-- One API-level operation. -/
inductive Op where
  | startup
  | listActivities
  | signup (activity_name email : String)
  | unregister (activity_name email : String)

/-- The store after one operation: a failed handler leaves the store as it
was (the session is closed without a commit). -/
def step (s : Store) : Op → Store
  | Op.startup => on_startup s
  | Op.listActivities => s
  | Op.signup n e =>
    match signup_for_activity s n e with
    | Except.ok (_, s') => s'
    | Except.error _ => s
  | Op.unregister n e =>
    match unregister_from_activity s n e with
    | Except.ok (_, s') => s'
    | Except.error _ => s

/-- The store after a sequence of operations. -/
def run (s : Store) (ops : List Op) : Store :=
  ops.foldl step s

/-- The capacity check for one activity: when `max_participants` is set, the
participant rows referencing the activity do not exceed it. -/
def capOk (s : Store) (a : Activity) : Bool :=
  match a.max_participants with
  | none => true
  | some cap => decide ((activityCount s a.id : Int) ≤ cap)

/-- Capacity invariant of a store. -/
def CapInv (s : Store) : Prop :=
  ∀ a ∈ s.activities, capOk s a = true

/-- Well-formedness of a store, true of every state reachable through the
API from a fresh database: activity names and ids are unique, participant
ids are unique and below the auto-increment counter, and no
(activity, email) pair occurs twice. -/
def Wf (s : Store) : Prop :=
  (s.activities.map (fun a => a.name)).Nodup ∧
  (s.activities.map (fun a => a.id)).Nodup ∧
  (s.participants.map (fun p => p.id)).Nodup ∧
  (s.participants.map (fun p => (p.activity_id, p.email))).Nodup ∧
  ∀ p ∈ s.participants, p.id < s.nextParticipantId

instance : DecidablePred Wf := fun s => by
  unfold Wf; infer_instance

instance : DecidablePred CapInv := fun s => by
  unfold CapInv; infer_instance

/-- Inductive invariant used for C9: well-formedness, the capacity bound,
and a non-empty activity table (so a later startup run reseeds nothing). -/
def Inv (s : Store) : Prop :=
  Wf s ∧ CapInv s ∧ s.activities ≠ []

/-! ### Basic lemmas about `oneOrNone` and the row filters -/

theorem oneOrNone_eq_ok_none {α : Type} {l : List α} :
    oneOrNone l = Except.ok none ↔ l = [] := by
  cases l with
  | nil => simp [oneOrNone]
  | cons x xs => cases xs <;> simp [oneOrNone]

theorem oneOrNone_eq_ok_some {α : Type} {l : List α} {a : α} :
    oneOrNone l = Except.ok (some a) ↔ l = [a] := by
  cases l with
  | nil => simp [oneOrNone]
  | cons x xs => cases xs <;> simp [oneOrNone]

/-- If a Boolean predicate forces a key and the keys of `l` are distinct,
then filtering `l` by the predicate yields exactly the one matching row. -/
theorem filter_singleton_of_nodup_key {α β : Type} (f : α → β) (p : α → Bool)
    (hp : ∀ x y, p x = true → p y = true → f x = f y) :
    ∀ {l : List α}, (l.map f).Nodup → ∀ {a : α}, a ∈ l → p a = true →
      l.filter p = [a] := by
  intro l
  induction l with
  | nil => intro _ a ha _; exact absurd ha (List.not_mem_nil a)
  | cons x xs ih =>
    intro hnd a ha hpa
    rw [List.map_cons, List.nodup_cons] at hnd
    obtain ⟨hx, hnd'⟩ := hnd
    by_cases hax : a = x
    · subst hax
      rw [List.filter_cons_of_pos hpa]
      have : xs.filter p = [] := by
        refine List.filter_eq_nil_iff.mpr (fun b hb hpb => ?_)
        exact hx (by rw [hp a b hpa hpb]; exact List.mem_map_of_mem f hb)
      rw [this]
    · have hax' : a ∈ xs := (List.mem_cons.mp ha).resolve_left hax
      have hpx : ¬ p x = true := by
        intro hpx
        exact hx (by rw [hp x a hpx hpa]; exact List.mem_map_of_mem f hax')
      rw [List.filter_cons_of_neg (by simpa using hpx)]
      exact ih hnd' hax' hpa

/-- In a well-formed store the name lookup of the handlers returns exactly
the one activity carrying that name. -/
theorem activities_filter_eq {s : Store} (hwf : Wf s) {a : Activity}
    (ha : a ∈ s.activities) {n : String} (hn : a.name = n) :
    s.activities.filter (fun x => x.name == n) = [a] := by
  refine filter_singleton_of_nodup_key (fun x => x.name) _ ?_ hwf.1 ha (by simp [hn])
  intro x y hx hy
  simp only [beq_iff_eq] at hx hy
  show x.name = y.name
  rw [hx, hy]

/-- If no activity carries the requested name, the name lookup is empty. -/
theorem activities_filter_eq_nil {s : Store} {n : String}
    (h : ∀ a ∈ s.activities, a.name ≠ n) :
    s.activities.filter (fun x => x.name == n) = [] := by
  refine List.filter_eq_nil_iff.mpr (fun a ha => ?_)
  simpa using h a ha

/-- In a well-formed store the duplicate lookup returns exactly the one
participant with the requested (activity, email) pair. -/
theorem participants_pair_filter_eq {s : Store} (hwf : Wf s) {p : Participant}
    (hp : p ∈ s.participants) {aid : Nat} {e : String}
    (h1 : p.activity_id = some aid) (h2 : p.email = e) :
    s.participants.filter (fun q => q.activity_id == some aid && q.email == e)
      = [p] := by
  refine filter_singleton_of_nodup_key (fun q => (q.activity_id, q.email)) _ ?_
    hwf.2.2.2.1 hp (by simp [h1, h2])
  intro x y hx hy
  simp only [Bool.and_eq_true, beq_iff_eq] at hx hy
  show (x.activity_id, x.email) = (y.activity_id, y.email)
  rw [hx.1, hx.2, hy.1, hy.2]

/-- If no participant of the store carries the (activity, email) pair, the
duplicate lookup is empty. -/
theorem participants_pair_filter_eq_nil {s : Store} {aid : Nat} {e : String}
    (h : ∀ p ∈ s.participants, ¬(p.activity_id = some aid ∧ p.email = e)) :
    s.participants.filter (fun q => q.activity_id == some aid && q.email == e)
      = [] := by
  refine List.filter_eq_nil_iff.mpr (fun q hq => ?_)
  simpa [Bool.and_eq_true, -not_and, not_and_or] using
    (not_and_or.mp (h q hq))

/-! ### Outcome lemmas for the sign-up handler -/

/-- Success path of sign-up: the activity exists, the email is not yet
registered for it, and its capacity is unset (the only way past the
crashing capacity branch). -/
theorem signup_ok_of {s : Store} {n e : String} {a : Activity}
    (hwf : Wf s) (ha : a ∈ s.activities) (hn : a.name = n)
    (hdup : ∀ p ∈ s.participants, ¬(p.activity_id = some a.id ∧ p.email = e))
    (hmp : a.max_participants = none) :
    signup_for_activity s n e =
      Except.ok (⟨"Signed up " ++ e ++ " for " ++ n, s.nextParticipantId⟩,
        { s with
            participants :=
              s.participants ++ [⟨s.nextParticipantId, e, some a.id⟩]
            nextParticipantId := s.nextParticipantId + 1 }) := by
  have h1 := activities_filter_eq hwf ha hn
  have h2 := participants_pair_filter_eq_nil hdup
  simp [signup_for_activity, h1, h2, oneOrNone, hmp]

/-- Unknown activity name: sign-up fails with 404. -/
theorem signup_notfound_of {s : Store} {n e : String}
    (h : ∀ a ∈ s.activities, a.name ≠ n) :
    signup_for_activity s n e =
      Except.error (HandlerError.http ⟨404, "Activity not found"⟩) := by
  simp [signup_for_activity, activities_filter_eq_nil h, oneOrNone]

/-- Duplicate sign-up: the email is already registered for the activity,
and the handler fails with 400 before ever reaching the capacity check. -/
theorem signup_dup_error_of {s : Store} {n e : String} {a : Activity}
    (hwf : Wf s) (ha : a ∈ s.activities) (hn : a.name = n)
    {p : Participant} (hp : p ∈ s.participants)
    (h1 : p.activity_id = some a.id) (h2 : p.email = e) :
    signup_for_activity s n e =
      Except.error (HandlerError.http ⟨400, "Student is already signed up"⟩) := by
  simp [signup_for_activity, activities_filter_eq hwf ha hn,
    participants_pair_filter_eq hwf hp h1 h2, oneOrNone]

/-- Capacity-set activity: whatever the count, once the name lookup and
duplicate check pass, the handler dies on `ScalarResult.count` with an
`AttributeError` — never the 400 "Activity is full", never the insert. -/
theorem signup_capacity_crash_of {s : Store} {n e : String} {a : Activity}
    (hwf : Wf s) (ha : a ∈ s.activities) (hn : a.name = n)
    (hdup : ∀ p ∈ s.participants, ¬(p.activity_id = some a.id ∧ p.email = e))
    {cap : Int} (hmp : a.max_participants = some cap) :
    signup_for_activity s n e = Except.error HandlerError.attributeError := by
  simp [signup_for_activity, activities_filter_eq hwf ha hn,
    participants_pair_filter_eq_nil hdup, oneOrNone, hmp]

/-! ### Outcome lemmas for the unregister handler -/

/-- Unknown activity name: unregister fails with 404. -/
theorem unregister_notfound_of {s : Store} {n e : String}
    (h : ∀ a ∈ s.activities, a.name ≠ n) :
    unregister_from_activity s n e =
      Except.error (HandlerError.http ⟨404, "Activity not found"⟩) := by
  simp [unregister_from_activity, activities_filter_eq_nil h, oneOrNone]

/-- No matching participant: unregister fails with 400. -/
theorem unregister_notsignedup_of {s : Store} {n e : String} {a : Activity}
    (hwf : Wf s) (ha : a ∈ s.activities) (hn : a.name = n)
    (hnone : ∀ p ∈ s.participants, ¬(p.activity_id = some a.id ∧ p.email = e)) :
    unregister_from_activity s n e =
      Except.error
        (HandlerError.http ⟨400, "Student is not signed up for this activity"⟩) := by
  simp [unregister_from_activity, activities_filter_eq hwf ha hn,
    participants_pair_filter_eq_nil hnone, oneOrNone]

/-- Success path of unregister: the matching row is deleted by primary key. -/
theorem unregister_ok_of {s : Store} {n e : String} {a : Activity}
    (hwf : Wf s) (ha : a ∈ s.activities) (hn : a.name = n)
    {p : Participant} (hp : p ∈ s.participants)
    (h1 : p.activity_id = some a.id) (h2 : p.email = e) :
    unregister_from_activity s n e =
      Except.ok (⟨"Unregistered " ++ e ++ " from " ++ n⟩,
        { s with
            participants := s.participants.filter (fun q => !(q.id == p.id)) }) := by
  simp [unregister_from_activity, activities_filter_eq hwf ha hn,
    participants_pair_filter_eq hwf hp h1 h2, oneOrNone]

/-- Deleting by the primary key of a row of a store with distinct
participant ids removes exactly that row. -/
theorem filter_ne_id_eq_erase {l : List Participant}
    (hnd : (l.map (fun p => p.id)).Nodup) {p : Participant} (hp : p ∈ l) :
    l.filter (fun q => !(q.id == p.id)) = l.erase p := by
  induction l with
  | nil => cases hp
  | cons x xs ih =>
    rw [List.map_cons, List.nodup_cons] at hnd
    obtain ⟨hx, hnd'⟩ := hnd
    by_cases hxp : x = p
    · subst hxp
      rw [List.filter_cons_of_neg (by simp)]
      rw [List.erase_cons_head]
      refine List.filter_eq_self.mpr (fun q hq => ?_)
      simp only [Bool.not_eq_true']
      refine beq_eq_false_iff_ne.mpr (fun hid => ?_)
      exact hx (by rw [← hid]; exact List.mem_map_of_mem _ hq)
    · have hp' : p ∈ xs := (List.mem_cons.mp hp).resolve_left (fun h => hxp h.symm)
      have hxid : x.id ≠ p.id := by
        intro hid
        exact hx (by rw [hid]; exact List.mem_map_of_mem _ hp')
      rw [List.filter_cons_of_pos (by simpa using hxid)]
      rw [List.erase_cons_tail (by simpa using hxp)]
      rw [ih hnd' hp']

/-! ### Inversion of successful handler runs -/

/-- A successful sign-up determines the store it ran against: some activity
won the name lookup, the duplicate lookup was empty, the capacity check
passed, and the result appends exactly one fresh participant row. -/
theorem signup_ok_inv {s : Store} {n e : String} {r : SignupOk} {s' : Store}
    (h : signup_for_activity s n e = Except.ok (r, s')) :
    ∃ a, s.activities.filter (fun x => x.name == n) = [a] ∧
      s.participants.filter
        (fun q => q.activity_id == some a.id && q.email == e) = [] ∧
      a.max_participants = none ∧
      r = ⟨"Signed up " ++ e ++ " for " ++ n, s.nextParticipantId⟩ ∧
      s' = { s with
              participants :=
                s.participants ++ [⟨s.nextParticipantId, e, some a.id⟩]
              nextParticipantId := s.nextParticipantId + 1 } := by
  unfold signup_for_activity at h
  split at h
  · exact absurd h (by simp)
  · exact absurd h (by simp)
  · rename_i a hA
    refine ⟨a, oneOrNone_eq_ok_some.mp hA, ?_⟩
    split at h
    · exact absurd h (by simp)
    · exact absurd h (by simp)
    · rename_i hD
      refine ⟨oneOrNone_eq_ok_none.mp hD, ?_⟩
      split at h
      · exact absurd h (by simp)
      · rename_i hmp
        simp only [Except.ok.injEq, Prod.mk.injEq] at h
        exact ⟨hmp, h.1.symm, h.2.symm⟩

/-- A successful unregister determines the store it ran against: some
activity won the name lookup, exactly one participant row matched, and the
result deletes that row by primary key. -/
theorem unregister_ok_inv {s : Store} {n e : String} {r : MessageOk}
    {s' : Store}
    (h : unregister_from_activity s n e = Except.ok (r, s')) :
    ∃ a p, s.activities.filter (fun x => x.name == n) = [a] ∧
      s.participants.filter
        (fun q => q.activity_id == some a.id && q.email == e) = [p] ∧
      r = ⟨"Unregistered " ++ e ++ " from " ++ n⟩ ∧
      s' = { s with
              participants :=
                s.participants.filter (fun q => !(q.id == p.id)) } := by
  unfold unregister_from_activity at h
  split at h
  · exact absurd h (by simp)
  · exact absurd h (by simp)
  · rename_i a hA
    split at h
    · exact absurd h (by simp)
    · exact absurd h (by simp)
    · rename_i p hD
      simp only [Except.ok.injEq, Prod.mk.injEq] at h
      exact ⟨a, p, oneOrNone_eq_ok_some.mp hA, oneOrNone_eq_ok_some.mp hD,
        h.1.symm, h.2.symm⟩

/-! ### The claims -/

/-- C1: the claim fails on the code at every capacity-set activity.  At the
seeded store "Chess Club" exists with capacity 12, the email is not
registered for it and the participant count (2) is below the capacity —
every precondition of the claim holds — yet sign-up does not insert: the
capacity branch evaluates the nonexistent `ScalarResult.count` and raises
`AttributeError` (a 500 server error), leaving the store unchanged.  The
code's own comment ("enforce capacity if set") and its unreachable
`HTTPException(400, "Activity is full")` show the claimed behaviour was the
intent. -/
theorem C1_signup_capacity_crash :
    chessActivity ∈ seededStore.activities ∧
    chessActivity.max_participants = some 12 ∧
    (activityCount seededStore chessActivity.id : Int) < 12 ∧
    seededStore.participants.filter
      (fun p => p.activity_id == some chessActivity.id &&
        p.email == "newstudent@mergington.edu") = [] ∧
    signup_for_activity seededStore "Chess Club" "newstudent@mergington.edu" =
      Except.error HandlerError.attributeError ∧
    step seededStore (Op.signup "Chess Club" "newstudent@mergington.edu")
      = seededStore :=
  ⟨by decide, rfl, by decide, by decide, rfl, by decide⟩

/-- C2: the claim fails on the code.  At a store whose single activity has
capacity 1 and one registered participant — count has reached the set
capacity and the new email is not registered — sign-up does not return
HTTP 400 "Activity is full": it dies first on the nonexistent
`ScalarResult.count` with an `AttributeError` (a 500 server error).  The
store is unchanged, as the claim says, but the advertised Conflict
response is dead code. -/
theorem C2_signup_full_crash :
    (activityCount fullStore 1 : Int) ≥ 1 ∧
    signup_for_activity fullStore "Knitting Club" "bob@mergington.edu" =
      Except.error HandlerError.attributeError ∧
    signup_for_activity fullStore "Knitting Club" "bob@mergington.edu" ≠
      Except.error (HandlerError.http ⟨400, "Activity is full"⟩) ∧
    step fullStore (Op.signup "Knitting Club" "bob@mergington.edu")
      = fullStore := by
  refine ⟨by decide, rfl, ?_, by decide⟩
  rw [show signup_for_activity fullStore "Knitting Club" "bob@mergington.edu"
      = Except.error HandlerError.attributeError from rfl]
  simp

/-- C3: when no stored activity carries the requested name, sign-up fails
with HTTP 404 and the store is unchanged. -/
theorem C3_signup_unknown_activity (s : Store) (n e : String)
    (h : ∀ a ∈ s.activities, a.name ≠ n) :
    signup_for_activity s n e =
      Except.error (HandlerError.http ⟨404, "Activity not found"⟩) ∧
    step s (Op.signup n e) = s := by
  have hs := signup_notfound_of (e := e) h
  exact ⟨hs, by simp [step, hs]⟩

/-- Witness for C3: no seeded activity is called "Quantum Club". -/
theorem C3_signup_unknown_activity_witness :
    signup_for_activity seededStore "Quantum Club" "zoe@mergington.edu" =
      Except.error (HandlerError.http ⟨404, "Activity not found"⟩) ∧
    step seededStore (Op.signup "Quantum Club" "zoe@mergington.edu")
      = seededStore :=
  C3_signup_unknown_activity seededStore "Quantum Club" "zoe@mergington.edu"
    (by decide)

/-- C4: when the named activity exists in a well-formed store and a
participant with the given email is already registered for it, sign-up
fails with HTTP 400 "Student is already signed up" and the activity's
participant count (indeed the whole store) is unchanged. -/
theorem C4_signup_duplicate (s : Store) (n e : String) (a : Activity)
    (p : Participant)
    (hwf : Wf s) (ha : a ∈ s.activities) (hn : a.name = n)
    (hp : p ∈ s.participants) (h1 : p.activity_id = some a.id)
    (h2 : p.email = e) :
    signup_for_activity s n e =
      Except.error (HandlerError.http ⟨400, "Student is already signed up"⟩) ∧
    activityCount (step s (Op.signup n e)) a.id = activityCount s a.id ∧
    step s (Op.signup n e) = s := by
  have hs := signup_dup_error_of hwf ha hn hp h1 h2
  exact ⟨hs, by simp [step, hs], by simp [step, hs]⟩

/-- Witness for C4: michael is already in Chess Club at the seeded store. -/
theorem C4_signup_duplicate_witness :
    signup_for_activity seededStore "Chess Club" "michael@mergington.edu" =
      Except.error (HandlerError.http ⟨400, "Student is already signed up"⟩) ∧
    activityCount
        (step seededStore (Op.signup "Chess Club" "michael@mergington.edu"))
        chessActivity.id
      = activityCount seededStore chessActivity.id ∧
    step seededStore (Op.signup "Chess Club" "michael@mergington.edu")
      = seededStore :=
  C4_signup_duplicate seededStore "Chess Club" "michael@mergington.edu"
    chessActivity michaelRow (by decide) (by decide) rfl (by decide) rfl rfl

/-- C5: unregister returns 404 when the activity name is unknown (store
unchanged), a 400 "not signed up" error when the activity exists but the
email is not registered for it (store unchanged), and otherwise deletes
exactly the one matching (activity, email) row — every other row, including
same-email rows of other activities, survives — and returns a confirmation
message. -/
theorem C5_unregister (s : Store) (n e : String) :
    ((∀ a ∈ s.activities, a.name ≠ n) →
      unregister_from_activity s n e =
        Except.error (HandlerError.http ⟨404, "Activity not found"⟩) ∧
      step s (Op.unregister n e) = s) ∧
    (Wf s → ∀ a ∈ s.activities, a.name = n →
      (∀ p ∈ s.participants, ¬(p.activity_id = some a.id ∧ p.email = e)) →
      unregister_from_activity s n e =
        Except.error
          (HandlerError.http ⟨400, "Student is not signed up for this activity"⟩) ∧
      step s (Op.unregister n e) = s) ∧
    (Wf s → ∀ a ∈ s.activities, a.name = n →
      ∀ p ∈ s.participants, p.activity_id = some a.id → p.email = e →
      unregister_from_activity s n e =
        Except.ok (⟨"Unregistered " ++ e ++ " from " ++ n⟩,
          { s with participants := s.participants.erase p }) ∧
      p ∉ s.participants.erase p ∧
      (∀ q ∈ s.participants, q ≠ p → q ∈ s.participants.erase p) ∧
      (s.participants.erase p).length + 1 = s.participants.length) := by
  refine ⟨?_, ?_, ?_⟩
  · intro h
    have hs := unregister_notfound_of (e := e) h
    exact ⟨hs, by simp [step, hs]⟩
  · intro hwf a ha hn hnone
    have hs := unregister_notsignedup_of hwf ha hn hnone
    exact ⟨hs, by simp [step, hs]⟩
  · intro hwf a ha hn p hp h1 h2
    have hs := unregister_ok_of hwf ha hn hp h1 h2
    rw [filter_ne_id_eq_erase hwf.2.2.1 hp] at hs
    have hnd : s.participants.Nodup := List.Nodup.of_map _ hwf.2.2.1
    refine ⟨hs, hnd.not_mem_erase, ?_, List.length_erase_add_one hp⟩
    intro q hq hqp
    exact (List.mem_erase_of_ne hqp).mpr hq

/-- Witness for C5 at the seeded store: deleting michael from Chess Club
removes exactly his row, an unregistered email gets the "not signed up"
error, and an unknown activity gets 404. -/
theorem C5_unregister_witness :
    unregister_from_activity seededStore "Chess Club" "michael@mergington.edu" =
      Except.ok (⟨"Unregistered michael@mergington.edu from Chess Club"⟩,
        { seededStore with
            participants := seededStore.participants.erase michaelRow }) ∧
    michaelRow ∉ seededStore.participants.erase michaelRow ∧
    (seededStore.participants.erase michaelRow).length + 1
      = seededStore.participants.length ∧
    unregister_from_activity seededStore "Chess Club" "ghost@mergington.edu" =
      Except.error
        (HandlerError.http ⟨400, "Student is not signed up for this activity"⟩) ∧
    unregister_from_activity seededStore "Quantum Club" "michael@mergington.edu" =
      Except.error (HandlerError.http ⟨404, "Activity not found"⟩) := by
  have hdel := (C5_unregister seededStore "Chess Club"
    "michael@mergington.edu").2.2 (by decide) chessActivity (by decide) rfl
    michaelRow (by decide) rfl rfl
  have hns := (C5_unregister seededStore "Chess Club"
    "ghost@mergington.edu").2.1 (by decide) chessActivity (by decide) rfl
    (by decide)
  have hnf := (C5_unregister seededStore "Quantum Club"
    "michael@mergington.edu").1 (by decide)
  exact ⟨hdel.1, hdel.2.1, hdel.2.2.2, hns.1, hnf.1⟩

/-- C6: whenever sign-up succeeds on a well-formed store, unregistering the
same email from the same activity succeeds and returns the participant
table to exactly its pre-sign-up state (only the auto-increment counter has
moved on). -/
theorem C6_roundtrip (s : Store) (n e : String) (r : SignupOk) (s1 : Store)
    (hwf : Wf s)
    (hsu : signup_for_activity s n e = Except.ok (r, s1)) :
    unregister_from_activity s1 n e =
      Except.ok (⟨"Unregistered " ++ e ++ " from " ++ n⟩,
        { s with nextParticipantId := s.nextParticipantId + 1 }) ∧
    (step (step s (Op.signup n e)) (Op.unregister n e)).participants
      = s.participants := by
  obtain ⟨a, hA, hD, _, _, hs1⟩ := signup_ok_inv hsu
  have hnew : (s.participants ++
        [(⟨s.nextParticipantId, e, some a.id⟩ : Participant)]).filter
      (fun q => q.activity_id == some a.id && q.email == e)
      = [(⟨s.nextParticipantId, e, some a.id⟩ : Participant)] := by
    rw [List.filter_append, hD]
    simp
  have hdel : (s.participants ++
        [(⟨s.nextParticipantId, e, some a.id⟩ : Participant)]).filter
      (fun q => !(q.id == s.nextParticipantId)) = s.participants := by
    rw [List.filter_append]
    have hself : s.participants.filter (fun q => !(q.id == s.nextParticipantId))
        = s.participants := by
      refine List.filter_eq_self.mpr (fun q hq => ?_)
      simp only [Bool.not_eq_true']
      exact beq_eq_false_iff_ne.mpr (Nat.ne_of_lt (hwf.2.2.2.2 q hq))
    simp [hself]
  have hun : unregister_from_activity s1 n e =
      Except.ok (⟨"Unregistered " ++ e ++ " from " ++ n⟩,
        { s with nextParticipantId := s.nextParticipantId + 1 }) := by
    subst hs1
    simp [unregister_from_activity, hA, hnew, oneOrNone, hdel]
  exact ⟨hun, by simp [step, hsu, hun]⟩

/-- Witness for C6: sign up a fresh email for the capacity-free Open Club
(the only kind of sign-up the program completes), then unregister it; the
participant table is restored. -/
theorem C6_roundtrip_witness :
    unregister_from_activity
      { unlimitedStore with
          participants := unlimitedStore.participants ++
            [⟨unlimitedStore.nextParticipantId, "x@mergington.edu", some 1⟩]
          nextParticipantId := unlimitedStore.nextParticipantId + 1 }
      "Open Club" "x@mergington.edu" =
      Except.ok (⟨"Unregistered x@mergington.edu from Open Club"⟩,
        { unlimitedStore with
            nextParticipantId := unlimitedStore.nextParticipantId + 1 }) ∧
    (step (step unlimitedStore (Op.signup "Open Club" "x@mergington.edu"))
        (Op.unregister "Open Club" "x@mergington.edu")).participants
      = unlimitedStore.participants :=
  C6_roundtrip unlimitedStore "Open Club" "x@mergington.edu"
    ⟨"Signed up x@mergington.edu for Open Club", unlimitedStore.nextParticipantId⟩
    { unlimitedStore with
        participants := unlimitedStore.participants ++
          [⟨unlimitedStore.nextParticipantId, "x@mergington.edu", some 1⟩]
        nextParticipantId := unlimitedStore.nextParticipantId + 1 }
    (by decide) rfl

/-! ### Startup lemmas -/

/-- Appending participant rows in the seeding loop never touches the schema
flag. -/
theorem foldl_add_participant_schema (emails : List String) (aid : Nat)
    (t : Store) :
    (emails.foldl
      (fun t email =>
        { t with
            participants := t.participants ++ [⟨t.nextParticipantId, email, some aid⟩]
            nextParticipantId := t.nextParticipantId + 1 })
      t).schemaCreated = t.schemaCreated := by
  induction emails generalizing t with
  | nil => rfl
  | cons x xs ih => rw [List.foldl_cons, ih]

/-- One seeding iteration never touches the schema flag. -/
theorem addLegacy_schemaCreated (s : Store) (la : LegacyActivity) :
    (addLegacy s la).schemaCreated = s.schemaCreated := by
  unfold addLegacy
  rw [foldl_add_participant_schema]

/-- The whole seeding loop never touches the schema flag. -/
theorem foldl_addLegacy_schema (las : List LegacyActivity) (s : Store) :
    (las.foldl addLegacy s).schemaCreated = s.schemaCreated := by
  induction las generalizing s with
  | nil => rfl
  | cons la las ih => rw [List.foldl_cons, ih, addLegacy_schemaCreated]

/-- Startup on a store whose activity table already has a row only runs the
schema creation. -/
theorem on_startup_nonempty {s : Store} (hne : s.activities ≠ []) :
    on_startup s = { s with schemaCreated := true } := by
  unfold on_startup create_db_and_tables
  cases hA : s.activities with
  | nil => exact absurd hA hne
  | cons x xs => simp [hA]

/-- Startup always runs the schema creation. -/
theorem on_startup_schema (s : Store) :
    (on_startup s).schemaCreated = true := by
  unfold on_startup create_db_and_tables
  cases hA : s.activities with
  | nil => simp [hA, foldl_addLegacy_schema]
  | cons x xs => simp [hA]

/-! ### Claims C7, C8, C10 -/

/-- C7: after startup on an empty store, the listing endpoint returns
exactly the nine seeded activities, each with exactly its two seeded
participant emails; in particular "Chess Club" has capacity 12 and
participants michael and daniel. -/
theorem C7_seed_listing :
    get_activities seededStore =
      [⟨1, "Chess Club",
        some "Learn strategies and compete in chess tournaments",
        some "Fridays, 3:30 PM - 5:00 PM", some 12,
        ["michael@mergington.edu", "daniel@mergington.edu"]⟩,
       ⟨2, "Programming Class",
        some "Learn programming fundamentals and build software projects",
        some "Tuesdays and Thursdays, 3:30 PM - 4:30 PM", some 20,
        ["emma@mergington.edu", "sophia@mergington.edu"]⟩,
       ⟨3, "Gym Class",
        some "Physical education and sports activities",
        some "Mondays, Wednesdays, Fridays, 2:00 PM - 3:00 PM", some 30,
        ["john@mergington.edu", "olivia@mergington.edu"]⟩,
       ⟨4, "Soccer Team",
        some "Join the school soccer team and compete in matches",
        some "Tuesdays and Thursdays, 4:00 PM - 5:30 PM", some 22,
        ["liam@mergington.edu", "noah@mergington.edu"]⟩,
       ⟨5, "Basketball Team",
        some "Practice and play basketball with the school team",
        some "Wednesdays and Fridays, 3:30 PM - 5:00 PM", some 15,
        ["ava@mergington.edu", "mia@mergington.edu"]⟩,
       ⟨6, "Art Club",
        some "Explore your creativity through painting and drawing",
        some "Thursdays, 3:30 PM - 5:00 PM", some 15,
        ["amelia@mergington.edu", "harper@mergington.edu"]⟩,
       ⟨7, "Drama Club",
        some "Act, direct, and produce plays and performances",
        some "Mondays and Wednesdays, 4:00 PM - 5:30 PM", some 20,
        ["ella@mergington.edu", "scarlett@mergington.edu"]⟩,
       ⟨8, "Math Club",
        some "Solve challenging problems and participate in math competitions",
        some "Tuesdays, 3:30 PM - 4:30 PM", some 10,
        ["james@mergington.edu", "benjamin@mergington.edu"]⟩,
       ⟨9, "Debate Team",
        some "Develop public speaking and argumentation skills",
        some "Fridays, 4:00 PM - 5:30 PM", some 12,
        ["charlotte@mergington.edu", "henry@mergington.edu"]⟩] := by
  decide

/-- C8: startup always runs schema creation, and against a store whose
activity table already contains a row it inserts, deletes and modifies
nothing. -/
theorem C8_startup_idempotent (s : Store) :
    (on_startup s).schemaCreated = true ∧
    (s.activities ≠ [] →
      on_startup s = { s with schemaCreated := true } ∧
      (on_startup s).activities = s.activities ∧
      (on_startup s).participants = s.participants) := by
  refine ⟨on_startup_schema s, fun hne => ?_⟩
  have h := on_startup_nonempty hne
  exact ⟨h, by rw [h], by rw [h]⟩

/-- Witness for C8: a second startup run on the seeded store changes no
row. -/
theorem C8_startup_idempotent_witness :
    (on_startup seededStore).schemaCreated = true ∧
    (on_startup seededStore = { seededStore with schemaCreated := true } ∧
     (on_startup seededStore).activities = seededStore.activities ∧
     (on_startup seededStore).participants = seededStore.participants) :=
  ⟨(C8_startup_idempotent seededStore).1,
   (C8_startup_idempotent seededStore).2 (by decide)⟩

/-- C10 as stated is false: it promises success for any email string at any
existing below-capacity activity, but at "Chess Club" (capacity 12, count
2 < 12, the empty string not registered) sign-up of the empty string does
not succeed — the capacity branch crashes on `ScalarResult.count` first. -/
theorem C10_empty_email_counterexample :
    chessActivity ∈ seededStore.activities ∧
    chessActivity.max_participants = some 12 ∧
    (activityCount seededStore chessActivity.id : Int) < 12 ∧
    seededStore.participants.filter
      (fun p => p.activity_id == some chessActivity.id && p.email == "") = [] ∧
    (signup_for_activity seededStore "Chess Club" "").isOk = false :=
  ⟨by decide, rfl, by decide, by decide, rfl⟩

/-- C10 (amended): the sign-up handler validates nothing about the email
string: any string — the empty string included — that is not yet registered
for an existing activity whose capacity is unset (the only activities whose
sign-up reaches the insert; capacity-set ones crash in the capacity check)
is accepted and stored verbatim as the new participant's email. -/
theorem C10_no_email_validation (s : Store) (n : String) (a : Activity)
    (email : String)
    (hwf : Wf s) (ha : a ∈ s.activities) (hn : a.name = n)
    (hdup : ∀ p ∈ s.participants,
      ¬(p.activity_id = some a.id ∧ p.email = email))
    (hmp : a.max_participants = none) :
    (signup_for_activity s n email).isOk = true ∧
    (⟨s.nextParticipantId, email, some a.id⟩ : Participant)
      ∈ (step s (Op.signup n email)).participants := by
  have hs := signup_ok_of hwf ha hn hdup hmp
  exact ⟨by simp [hs, Except.isOk, Except.toBool], by simp [step, hs]⟩

/-- Witness for C10 (amended): the empty string signs up for the
capacity-free Open Club and is stored verbatim. -/
theorem C10_no_email_validation_witness :
    (signup_for_activity unlimitedStore "Open Club" "").isOk = true ∧
    (⟨unlimitedStore.nextParticipantId, "",
        some (⟨1, "Open Club", none, none, none⟩ : Activity).id⟩ : Participant)
      ∈ (step unlimitedStore (Op.signup "Open Club" "")).participants :=
  C10_no_email_validation unlimitedStore "Open Club"
    ⟨1, "Open Club", none, none, none⟩ ""
    (by decide) (by decide) rfl (by decide) rfl

/-! ### Preservation of the inductive invariant (C9) -/

/-- A successful sign-up preserves well-formedness and the capacity bound,
and leaves the activity table unchanged. -/
theorem signup_ok_preserves {s : Store} {n e : String} {r : SignupOk}
    {s' : Store} (hwf : Wf s) (hcap : CapInv s)
    (h : signup_for_activity s n e = Except.ok (r, s')) :
    Wf s' ∧ CapInv s' ∧ s'.activities = s.activities := by
  obtain ⟨a, hA, hD, hnone, _, hs'⟩ := signup_ok_inv h
  have haMem : a ∈ s.activities :=
    List.mem_of_mem_filter (by rw [hA]; exact List.mem_singleton.mpr rfl)
  have hlt := hwf.2.2.2.2
  subst hs'
  refine ⟨⟨hwf.1, hwf.2.1, ?_, ?_, ?_⟩, ?_, rfl⟩
  · -- participant ids stay distinct: the new id is fresh
    rw [List.map_append]
    refine List.nodup_append.mpr ⟨hwf.2.2.1, List.nodup_singleton _, ?_⟩
    intro x hx hx'
    simp only [List.map_cons, List.map_nil, List.mem_singleton] at hx'
    obtain ⟨q, hq, hqid⟩ := List.mem_map.mp hx
    exact Nat.ne_of_lt (hlt q hq) (hqid.trans hx')
  · -- (activity, email) pairs stay distinct: the duplicate lookup was empty
    rw [List.map_append]
    refine List.nodup_append.mpr ⟨hwf.2.2.2.1, List.nodup_singleton _, ?_⟩
    intro x hx hx'
    simp only [List.map_cons, List.map_nil, List.mem_singleton] at hx'
    obtain ⟨q, hq, hqpair⟩ := List.mem_map.mp hx
    have hqmatch := List.filter_eq_nil_iff.mp hD q hq
    rw [hx'] at hqpair
    have h1 : q.activity_id = some a.id := congrArg Prod.fst hqpair
    have h2 : q.email = e := congrArg Prod.snd hqpair
    exact hqmatch (by simp [h1, h2])
  · -- all ids stay below the bumped counter
    intro q hq
    rcases List.mem_append.mp hq with hq' | hq'
    · exact Nat.lt_succ_of_lt (hlt q hq')
    · rw [List.mem_singleton.mp hq']
      exact Nat.lt_succ_self _
  · -- the capacity bound
    intro b hb
    cases hmb : b.max_participants with
    | none => simp [capOk, hmb]
    | some capb =>
      by_cases hid : a.id = b.id
      · -- impossible: the insert was reached, so a's capacity is unset,
        -- while b's is set; distinct ids force a = b
        have hab : a = b := List.inj_on_of_nodup_map hwf.2.1 haMem hb hid
        subst hab
        rw [hnone] at hmb
        simp at hmb
      · have hbeq : ((some a.id : Option Nat) == some b.id) = false :=
          beq_eq_false_iff_ne.mpr (by simpa using hid)
        have hcnt : activityCount
            { s with
                participants :=
                  s.participants ++ [⟨s.nextParticipantId, e, some a.id⟩]
                nextParticipantId := s.nextParticipantId + 1 } b.id
            = activityCount s b.id := by
          simp [activityCount, List.filter_append, hbeq]
        have hb' := hcap b hb
        simp only [capOk, hmb, decide_eq_true_eq] at hb' ⊢
        rwa [hcnt]

/-- A successful unregister preserves well-formedness and the capacity
bound, and leaves the activity table unchanged. -/
theorem unregister_ok_preserves {s : Store} {n e : String} {r : MessageOk}
    {s' : Store} (hwf : Wf s) (hcap : CapInv s)
    (h : unregister_from_activity s n e = Except.ok (r, s')) :
    Wf s' ∧ CapInv s' ∧ s'.activities = s.activities := by
  obtain ⟨a, p, hA, hD, _, hs'⟩ := unregister_ok_inv h
  subst hs'
  have hsub := List.filter_sublist (p := fun q => !(q.id == p.id))
    s.participants
  refine ⟨⟨hwf.1, hwf.2.1, ?_, ?_, ?_⟩, ?_, rfl⟩
  · exact ((hsub.map _).nodup hwf.2.2.1)
  · exact ((hsub.map _).nodup hwf.2.2.2.1)
  · intro q hq
    exact hwf.2.2.2.2 q (List.mem_of_mem_filter hq)
  · intro b hb
    cases hmb : b.max_participants with
    | none => simp [capOk, hmb]
    | some capb =>
      have hb' := hcap b hb
      simp only [capOk, hmb, decide_eq_true_eq] at hb' ⊢
      have hle : activityCount
          { s with
              participants :=
                s.participants.filter (fun q => !(q.id == p.id)) } b.id
          ≤ activityCount s b.id :=
        (hsub.filter _).length_le
      omega

/-- Every operation preserves the inductive invariant. -/
theorem Inv_step {s : Store} (op : Op) (h : Inv s) : Inv (step s op) := by
  obtain ⟨hwf, hcap, hne⟩ := h
  cases op with
  | startup =>
    show Inv (on_startup s)
    rw [on_startup_nonempty hne]
    exact ⟨hwf, hcap, hne⟩
  | listActivities => exact ⟨hwf, hcap, hne⟩
  | signup n e =>
    show Inv (step s (Op.signup n e))
    cases hres : signup_for_activity s n e with
    | error err => simpa [step, hres] using (⟨hwf, hcap, hne⟩ : Inv s)
    | ok pair =>
      obtain ⟨r, s'⟩ := pair
      obtain ⟨hwf', hcap', hact⟩ := signup_ok_preserves hwf hcap hres
      have hstep : step s (Op.signup n e) = s' := by simp [step, hres]
      rw [hstep]
      exact ⟨hwf', hcap', by rw [hact]; exact hne⟩
  | unregister n e =>
    show Inv (step s (Op.unregister n e))
    cases hres : unregister_from_activity s n e with
    | error err => simpa [step, hres] using (⟨hwf, hcap, hne⟩ : Inv s)
    | ok pair =>
      obtain ⟨r, s'⟩ := pair
      obtain ⟨hwf', hcap', hact⟩ := unregister_ok_preserves hwf hcap hres
      have hstep : step s (Op.unregister n e) = s' := by simp [step, hres]
      rw [hstep]
      exact ⟨hwf', hcap', by rw [hact]; exact hne⟩

/-- Every operation sequence preserves the inductive invariant. -/
theorem Inv_run {s : Store} (ops : List Op) (h : Inv s) : Inv (run s ops) := by
  induction ops generalizing s with
  | nil => exact h
  | cons op ops ih => exact ih (Inv_step op h)

/-- The seeded store satisfies the inductive invariant. -/
theorem Inv_seededStore : Inv seededStore :=
  ⟨by decide, by decide, by decide⟩

/-- C9: starting from the seeded initial state, every sequence of API
operations (startup, listing, sign-up, unregister) keeps every activity
with a set capacity at or below that capacity. -/
theorem C9_capacity_invariant (ops : List Op) :
    CapInv (run seededStore ops) :=
  (Inv_run ops Inv_seededStore).2.1

end Mergington
